import Mathlib

/-!
Shallow embedding of the logflow-anomaly-detector analytic pipeline
(metrics collector, the three anomaly detectors, and the file tailer's
control paths), together with theorems settling the specification claims.

Modelling conventions:
* Go `float64` values are modelled as `ℚ` (exact arithmetic); every float
  expression of the source is translated literally, so algebraic claims are
  settled at the expression level.
* `math.Sqrt` is passed in as an explicit function parameter `sq : ℚ → ℚ`;
  theorems that depend on it assume its defining property at the points
  where the code applies it.
* Wall-clock quantities (`time.Since`, `time.Now`) are impure; the elapsed
  duration is taken as an explicit argument and `Timestamp` fields are
  omitted from the records (no claim mentions them).
* Go methods that mutate their receiver become state-passing functions
  returning the updated record.
-/

namespace LogFlow

/-- `models.Metrics` restricted to its numeric fields (the timestamp, the
status-code map and the top-N sequences are not touched by any claim). -/
structure Metrics where
  requestsPerSec : ℚ
  errorRate : ℚ
  avgResponseTime : ℚ
deriving DecidableEq, Repr

/-- `models.Severity`. -/
inductive Severity where
  | low
  | medium
  | high
  | critical
deriving DecidableEq, Repr

/-- `models.AnomalyType`. -/
inductive AnomalyType where
  | errorRate
  | trafficSpike
  | responseTime
  | pattern
  | statusCode
deriving DecidableEq, Repr

/-- `models.Anomaly` (timestamp omitted: it is `time.Now()` at emission). -/
structure Anomaly where
  type : AnomalyType
  severity : Severity
  description : String
  metric : String
  actualValue : ℚ
  expectedValue : ℚ
  deviation : ℚ
deriving DecidableEq, Repr

/-- `analyzer.MetricsWindow` restricted to the fields `computeMetrics`
reads (the per-key maps feed only the omitted top-N/status fields). -/
structure MetricsWindow where
  totalRequests : Nat
  errorCount : Nat
  responseTimes : List ℚ
deriving DecidableEq, Repr

/-- `MetricsCollector.computeMetrics` (metrics.go lines 114-145).
`elapsedSeconds` stands for `time.Since(window.startTime).Seconds()`. -/
def computeMetrics (window : MetricsWindow) (elapsedSeconds : ℚ) : Metrics :=
  let duration := if elapsedSeconds = 0 then 1 else elapsedSeconds
  let requestsPerSec := (window.totalRequests : ℚ) / duration
  let errorRate := if window.totalRequests > 0 then
    (window.errorCount : ℚ) / (window.totalRequests : ℚ) else 0
  let avgResponseTime := if window.responseTimes.length > 0 then
    window.responseTimes.sum / (window.responseTimes.length : ℚ) else 0
  { requestsPerSec := requestsPerSec
    errorRate := errorRate
    avgResponseTime := avgResponseTime }

/-- `MetricsCollector.maxHistoricalSize` is set to 100 in
`NewMetricsCollector`. -/
def maxHistoricalSize : Nat := 100

/-- The history-ring update performed by `GetCurrentMetrics`
(metrics.go lines 93-96): append the snapshot, then drop the oldest
entry when the length exceeds `maxHistoricalSize`. -/
def archiveMetrics (history : List Metrics) (m : Metrics) : List Metrics :=
  let h := history ++ [m]
  if h.length > maxHistoricalSize then h.drop 1 else h

/-- Modelled from the spec: the claimed requests-per-second value with the
elapsed divisor clamped to be at least 1. -/
def specClampedRPS (totalRequests : Nat) (elapsedSeconds : ℚ) : ℚ :=
  (totalRequests : ℚ) / max elapsedSeconds 1

/-- `analyzer.calculateStats` (detector.go lines 166-185): population mean
and `math.Sqrt` of population variance. `sq` stands for `math.Sqrt`. -/
def calculateStats (sq : ℚ → ℚ) (metrics : List Metrics)
    (getValue : Metrics → ℚ) : ℚ × ℚ :=
  if metrics.length = 0 then (0, 0)
  else
    let mean := (metrics.map getValue).sum / (metrics.length : ℚ)
    let variance :=
      (metrics.map (fun m => (getValue m - mean) * (getValue m - mean))).sum
    (mean, sq (variance / (metrics.length : ℚ)))

/-- `analyzer.calculateSeverity` (detector.go lines 187-197). -/
def calculateSeverity (actual expected stdDev : ℚ) : Severity :=
  let deviation := |actual - expected|
  if deviation > 4 * stdDev then .critical
  else if deviation > 3 * stdDev then .high
  else if deviation > 2 * stdDev then .medium
  else .low

/-- `analyzer.StdDevDetector`. -/
structure StdDevDetector where
  threshold : ℚ
deriving DecidableEq, Repr

/-- `StdDevDetector.Detect` (detector.go lines 81-143). -/
def StdDevDetector.Detect (sq : ℚ → ℚ) (d : StdDevDetector)
    (current : Metrics) (historical : List Metrics) : List Anomaly :=
  if historical.length < 10 then []
  else
    let sER := calculateStats sq historical (fun m => m.errorRate)
    let aER : List Anomaly :=
      if |current.errorRate - sER.1| > d.threshold * sER.2 then
        [{ type := .errorRate
           severity := calculateSeverity current.errorRate sER.1 sER.2
           description := "Abnormal error rate detected"
           metric := "error_rate"
           actualValue := current.errorRate
           expectedValue := sER.1
           deviation := |current.errorRate - sER.1| }]
      else []
    let sRPS := calculateStats sq historical (fun m => m.requestsPerSec)
    let aRPS : List Anomaly :=
      if |current.requestsPerSec - sRPS.1| > d.threshold * sRPS.2 then
        [{ type := .trafficSpike
           severity := calculateSeverity current.requestsPerSec sRPS.1 sRPS.2
           description := "Traffic spike or drop detected"
           metric := "requests_per_sec"
           actualValue := current.requestsPerSec
           expectedValue := sRPS.1
           deviation := |current.requestsPerSec - sRPS.1| }]
      else []
    let sRT := calculateStats sq historical (fun m => m.avgResponseTime)
    let aRT : List Anomaly :=
      if current.avgResponseTime > sRT.1 + d.threshold * sRT.2 then
        [{ type := .responseTime
           severity := calculateSeverity current.avgResponseTime sRT.1 sRT.2
           description := "Response time degradation detected"
           metric := "avg_response_time"
           actualValue := current.avgResponseTime
           expectedValue := sRT.1
           deviation := current.avgResponseTime - sRT.1 }]
      else []
    aER ++ aRPS ++ aRT

/-- `analyzer.MovingAverageDetector`; the Go field `initialized` is named
`inited` here. -/
structure MovingAverageDetector where
  threshold : ℚ
  alpha : ℚ
  ewmaErrorRate : ℚ
  ewmaRequestsPerSec : ℚ
  ewmaAvgResponseTime : ℚ
  inited : Bool
deriving DecidableEq, Repr

/-- `analyzer.NewMovingAverageDetector` (part_004 lines 156-166): alpha
outside (0,1) defaults to 0.3; EWMA fields start at Go zero values. -/
def NewMovingAverageDetector (threshold alpha : ℚ) : MovingAverageDetector :=
  let alpha := if alpha ≤ 0 ∨ alpha ≥ 1 then 3 / 10 else alpha
  { threshold := threshold
    alpha := alpha
    ewmaErrorRate := 0
    ewmaRequestsPerSec := 0
    ewmaAvgResponseTime := 0
    inited := false }

/-- `MovingAverageDetector.initializeEWMA` (part_004 lines 242-261),
renamed `initEWMA`. -/
def MovingAverageDetector.initEWMA (d : MovingAverageDetector)
    (historical : List Metrics) : MovingAverageDetector :=
  if historical.length = 0 then d
  else
    let count : ℚ := historical.length
    { d with
      ewmaErrorRate := (historical.map (fun m => m.errorRate)).sum / count
      ewmaRequestsPerSec :=
        (historical.map (fun m => m.requestsPerSec)).sum / count
      ewmaAvgResponseTime :=
        (historical.map (fun m => m.avgResponseTime)).sum / count }

/-- `analyzer.calculateEWMASeverity` (part_004 lines 264-278). -/
def calculateEWMASeverity (deviation expected : ℚ) : Severity :=
  if expected = 0 then .low
  else
    let relativeDeviation := deviation / expected
    if relativeDeviation > 2 then .critical
    else if relativeDeviation > 1 then .high
    else if relativeDeviation > 1 / 2 then .medium
    else .low

/-- `MovingAverageDetector.Detect` (part_004 lines 168-239), with the
mutated receiver returned explicitly. -/
def MovingAverageDetector.Detect (d : MovingAverageDetector)
    (current : Metrics) (historical : List Metrics) :
    MovingAverageDetector × List Anomaly :=
  if d.inited = false ∧ historical.length < 5 then (d, [])
  else
    let d := if d.inited = false then
      { d.initEWMA historical with inited := true } else d
    let prevER := d.ewmaErrorRate
    let d := { d with
      ewmaErrorRate := d.alpha * current.errorRate + (1 - d.alpha) * prevER }
    let devER := |current.errorRate - prevER|
    let aER : List Anomaly :=
      if devER > d.threshold * prevER ∧ prevER > 1 / 100 then
        [{ type := .errorRate
           severity := calculateEWMASeverity devER prevER
           description := "Abnormal error rate detected"
           metric := "error_rate"
           actualValue := current.errorRate
           expectedValue := prevER
           deviation := devER }]
      else []
    let prevRPS := d.ewmaRequestsPerSec
    let d := { d with
      ewmaRequestsPerSec :=
        d.alpha * current.requestsPerSec + (1 - d.alpha) * prevRPS }
    let devRPS := |current.requestsPerSec - prevRPS|
    let aRPS : List Anomaly :=
      if devRPS > d.threshold * prevRPS ∧ prevRPS > 0 then
        [{ type := .trafficSpike
           severity := calculateEWMASeverity devRPS prevRPS
           description := "Traffic spike or drop detected"
           metric := "requests_per_sec"
           actualValue := current.requestsPerSec
           expectedValue := prevRPS
           deviation := devRPS }]
      else []
    let prevRT := d.ewmaAvgResponseTime
    let d := { d with
      ewmaAvgResponseTime :=
        d.alpha * current.avgResponseTime + (1 - d.alpha) * prevRT }
    let devRT := current.avgResponseTime - prevRT
    let aRT : List Anomaly :=
      if devRT > d.threshold * prevRT ∧ prevRT > 0 then
        [{ type := .responseTime
           severity := calculateEWMASeverity devRT prevRT
           description := "Response time degradation detected"
           metric := "avg_response_time"
           actualValue := current.avgResponseTime
           expectedValue := prevRT
           deviation := devRT }]
      else []
    (d, aER ++ aRPS ++ aRT)

/-- `analyzer.CUSUMDetector`; the Go field `initialized` is named
`inited` here. -/
structure CUSUMDetector where
  slackParameter : ℚ
  decisionThreshold : ℚ
  cusumPosErrorRate : ℚ
  cusumNegErrorRate : ℚ
  cusumPosRequestsPerSec : ℚ
  cusumNegRequestsPerSec : ℚ
  cusumPosResponseTime : ℚ
  cusumNegResponseTime : ℚ
  referenceErrorRate : ℚ
  referenceRequestsPerSec : ℚ
  referenceResponseTime : ℚ
  inited : Bool
deriving DecidableEq, Repr

/-- `analyzer.NewCUSUMDetector` (part_004 lines 302-316): slack defaults to
0.5 and the decision threshold to 5.0 when non-positive. -/
def NewCUSUMDetector (slackParameter decisionThreshold : ℚ) : CUSUMDetector :=
  let slackParameter := if slackParameter ≤ 0 then 1 / 2 else slackParameter
  let decisionThreshold :=
    if decisionThreshold ≤ 0 then 5 else decisionThreshold
  { slackParameter := slackParameter
    decisionThreshold := decisionThreshold
    cusumPosErrorRate := 0
    cusumNegErrorRate := 0
    cusumPosRequestsPerSec := 0
    cusumNegRequestsPerSec := 0
    cusumPosResponseTime := 0
    cusumNegResponseTime := 0
    referenceErrorRate := 0
    referenceRequestsPerSec := 0
    referenceResponseTime := 0
    inited := false }

/-- `analyzer.calculateCUSUMSeverity` (part_004 lines 464-474). -/
def calculateCUSUMSeverity (cusumValue threshold : ℚ) : Severity :=
  let ratio := cusumValue / threshold
  if ratio > 3 then .critical
  else if ratio > 2 then .high
  else if ratio > 3 / 2 then .medium
  else .low

/-- `CUSUMDetector.detectCUSUMAnomaly` (part_004 lines 376-439); the two
pointer-updated accumulators are returned as the first two components. -/
def CUSUMDetector.detectCUSUMAnomaly (d : CUSUMDetector)
    (currentValue cusumPos cusumNeg referenceMean : ℚ)
    (metricName : String) (anomalyType : AnomalyType)
    (description : String) : ℚ × ℚ × Option Anomaly :=
  let cusumPos :=
    max 0 (cusumPos + (currentValue - referenceMean - d.slackParameter))
  let cusumNeg :=
    max 0 (cusumNeg - (currentValue - referenceMean + d.slackParameter))
  if cusumPos > d.decisionThreshold then
    (0, 0, some
      { type := anomalyType
        severity := calculateCUSUMSeverity cusumPos d.decisionThreshold
        description := description ++ " (upward shift)"
        metric := metricName
        actualValue := currentValue
        expectedValue := referenceMean
        deviation := currentValue - referenceMean })
  else if cusumNeg > d.decisionThreshold then
    (0, 0, some
      { type := anomalyType
        severity := calculateCUSUMSeverity cusumNeg d.decisionThreshold
        description := description ++ " (downward shift)"
        metric := metricName
        actualValue := currentValue
        expectedValue := referenceMean
        deviation := referenceMean - currentValue })
  else (cusumPos, cusumNeg, none)

/-- `CUSUMDetector.initializeReferences` (part_004 lines 442-461),
renamed `initRefs`. -/
def CUSUMDetector.initRefs (d : CUSUMDetector)
    (historical : List Metrics) : CUSUMDetector :=
  if historical.length = 0 then d
  else
    let count : ℚ := historical.length
    { d with
      referenceErrorRate := (historical.map (fun m => m.errorRate)).sum / count
      referenceRequestsPerSec :=
        (historical.map (fun m => m.requestsPerSec)).sum / count
      referenceResponseTime :=
        (historical.map (fun m => m.avgResponseTime)).sum / count }

/-- `CUSUMDetector.Detect` (part_004 lines 318-373), with the mutated
receiver returned explicitly. -/
def CUSUMDetector.Detect (d : CUSUMDetector) (current : Metrics)
    (historical : List Metrics) : CUSUMDetector × List Anomaly :=
  if d.inited = false ∧ historical.length < 10 then (d, [])
  else
    let d := if d.inited = false then
      { d.initRefs historical with inited := true } else d
    let rER := d.detectCUSUMAnomaly current.errorRate
      d.cusumPosErrorRate d.cusumNegErrorRate d.referenceErrorRate
      "error_rate" .errorRate "Persistent error rate shift detected"
    let d := { d with
      cusumPosErrorRate := rER.1, cusumNegErrorRate := rER.2.1 }
    let rRPS := d.detectCUSUMAnomaly current.requestsPerSec
      d.cusumPosRequestsPerSec d.cusumNegRequestsPerSec
      d.referenceRequestsPerSec
      "requests_per_sec" .trafficSpike
      "Persistent traffic pattern change detected"
    let d := { d with
      cusumPosRequestsPerSec := rRPS.1, cusumNegRequestsPerSec := rRPS.2.1 }
    let rRT := d.detectCUSUMAnomaly current.avgResponseTime
      d.cusumPosResponseTime d.cusumNegResponseTime d.referenceResponseTime
      "avg_response_time" .responseTime
      "Persistent response time degradation detected"
    let d := { d with
      cusumPosResponseTime := rRT.1, cusumNegResponseTime := rRT.2.1 }
    (d, rER.2.2.toList ++ rRPS.2.2.toList ++ rRT.2.2.toList)

/-- Go runtime panics reachable from the embedded tailer code. -/
inductive GoPanic where
  | closeOfClosedChannel
deriving DecidableEq, Repr

/-- The `stream.Tailer` fields touched by `Stop`: whether `stopCh` has been
closed, and whether the watcher and file are non-nil. -/
structure TailerCtl where
  stopChClosed : Bool
  watcherOpen : Bool
  fileOpen : Bool
deriving DecidableEq, Repr

/-- `Tailer.Stop` (log_stream.go lines 318-345): it unconditionally runs
`close(t.stopCh)` — in Go, closing an already-closed channel panics — then
closes and nils the watcher and the file and returns a nil error (the
second component models the returned `error`: always `none` = nil). -/
def Tailer.Stop (t : TailerCtl) : Except GoPanic (TailerCtl × Option String) :=
  if t.stopChClosed then .error .closeOfClosedChannel
  else
    .ok ({ stopChClosed := true, watcherOpen := false, fileOpen := false },
      none)

/-- Capacity of the tailer's output channel (`make(chan string, 100)`). -/
def lineChanCapacity : Nat := 100

/-- The non-blocking channel send of `readNewLines` (log_stream.go lines
273-277): deliver the line if the buffer has room, otherwise drop it. -/
def sendLine (chan : List (List Char)) (line : List Char) :
    List (List Char) :=
  if chan.length < lineChanCapacity then chan ++ [line] else chan

/-- The newline byte that terminates each `ReadString` call. -/
def nlChar : Char := Char.ofNat 10

/-- The carriage-return byte stripped from line ends. -/
def crChar : Char := Char.ofNat 13

/-- The read loop of `readNewLines` (log_stream.go lines 232-278) over the
bytes past the reader's position. Each iteration models one
`reader.ReadString(newline)`: when the remaining bytes contain a newline
the read yields the bytes through it, otherwise it yields the remainder
with `io.EOF` and the loop stashes a non-empty remainder in the
incomplete-line buffer and stops. A complete read prepends (and clears)
the incomplete buffer, strips the trailing newline and an optional
carriage return, skips the line when it is empty, else records the
reader's byte position as the new offset (`file.Seek(0, io.SeekCurrent)`,
taken here as the position of the buffered reader) and sends the line
non-blockingly. Returns the incomplete buffer, the channel contents and
the recorded offset after the loop. -/
def processLines (incomplete : List Char) (chan : List (List Char))
    (pos offset : Nat) (remaining : List Char) :
    List Char × List (List Char) × Nat :=
  if h : nlChar ∈ remaining then
    let body := remaining.takeWhile (fun c => c ≠ nlChar)
    let rest := (remaining.dropWhile (fun c => c ≠ nlChar)).drop 1
    let pos2 := pos + body.length + 1
    let line := incomplete ++ body
    let line := if line.getLast? = some crChar then line.dropLast else line
    if line = [] then processLines [] chan pos2 offset rest
    else processLines [] (sendLine chan line) pos2 pos2 rest
  else
    (if remaining ≠ [] then remaining else incomplete, chan, offset)
termination_by remaining.length
decreasing_by
  all_goals
    have hne : remaining.dropWhile (fun c => c ≠ nlChar) ≠ [] := by
      intro hnil
      rw [List.dropWhile_eq_nil_iff] at hnil
      simpa using hnil _ h
  all_goals
    have hle : (remaining.dropWhile (fun c => c ≠ nlChar)).length ≤
        remaining.length := (List.dropWhile_sublist _).length_le
  all_goals
    have hpos : 0 < (remaining.dropWhile (fun c => c ≠ nlChar)).length :=
      List.length_pos.mpr hne
  all_goals
    simp only [List.length_drop]
  all_goals omega

/-- The `stream.Tailer` state read and written by `readNewLines`. The
on-disk file content stands in for what `Stat` and reads observe;
`readerPos` is the byte position of the buffered reader (equal to the
bytes it has consumed); `lineChan` holds the lines delivered so far. -/
structure TailerRead where
  fileOpen : Bool
  fileContent : List Char
  readerPos : Nat
  offset : Nat
  incomplete : List Char
  lineChan : List (List Char)
deriving DecidableEq, Repr

/-- `Tailer.readNewLines` (log_stream.go lines 199-279): nil-file guard;
stat the file; on truncation (size < offset) reset the offset, seek to the
start, rebuild the reader and discard the incomplete buffer; when the size
equals the offset do nothing; otherwise run the read loop from the
reader's position (the reader ends at end of file). -/
def readNewLines (t : TailerRead) : TailerRead :=
  if t.fileOpen = false then t
  else
    let currentSize := t.fileContent.length
    if currentSize < t.offset then
      { t with offset := 0, readerPos := 0, incomplete := [] }
    else if currentSize = t.offset then t
    else
      let r := processLines t.incomplete t.lineChan t.readerPos t.offset
        (t.fileContent.drop t.readerPos)
      { t with
        incomplete := r.1
        lineChan := r.2.1
        offset := r.2.2
        readerPos := currentSize }

/-- Concrete inputs for the C3 counterexample and witness: a fresh CUSUM
detector (slack 0.5, threshold 5) initialized over an all-zero history and
hit with an error-rate observation of 10. -/
def cusumFreshDetector : CUSUMDetector := NewCUSUMDetector (1 / 2) 5
/-- All-zero baseline history for the C3 theorems. -/
def cusumZeroHistory : List Metrics :=
  List.replicate 10
    { requestsPerSec := 0, errorRate := 0, avgResponseTime := 0 }
/-- Current snapshot with an error-rate spike for the C3 theorems. -/
def cusumSpikeCurrent : Metrics :=
  { requestsPerSec := 0, errorRate := 10, avgResponseTime := 0 }
/-- The anomaly the CUSUM detector emits on the C3 inputs. -/
def cusumSpikeAnomaly : Anomaly :=
  { type := AnomalyType.errorRate
    severity := Severity.medium
    description := "Persistent error rate shift detected (upward shift)"
    metric := "error_rate"
    actualValue := 10
    expectedValue := 0
    deviation := 10 }
/-- Concrete tailer state for the C9 witness: recorded offset 5 but only
one byte on disk (the file shrank). -/
def truncatedTailer : TailerRead :=
  { fileOpen := true
    fileContent := [nlChar]
    readerPos := 3
    offset := 5
    incomplete := [crChar]
    lineChan := [] }
/-- Concrete inputs for the C6 witness (spec scenario 3). -/
def ewmaColdDetector : MovingAverageDetector := NewMovingAverageDetector 1 (3 / 10)
/-- Concrete history for the C6 witness. -/
def ewmaColdHistory : List Metrics :=
  List.replicate 10
    { requestsPerSec := 100, errorRate := 1 / 20, avgResponseTime := 50 }
/-- Concrete current snapshot for the C6 witness. -/
def ewmaColdCurrent : Metrics :=
  { requestsPerSec := 100, errorRate := 1 / 20, avgResponseTime := 50 }

/-- Modelled from the spec: the population mean of a list of values. -/
def specPopMean (xs : List ℚ) : ℚ := xs.sum / (xs.length : ℚ)

/-- Modelled from the spec: the population variance of a list of values
(sum of squared deviations divided by N, not N-1). -/
def specPopVar (xs : List ℚ) : ℚ :=
  (xs.map (fun x => (x - specPopMean xs) ^ 2)).sum / (xs.length : ℚ)

/-- A concrete square-root function correct at 1/400, standing in for
`math.Sqrt` in the C7 witness. -/
def sqrtAt400 : ℚ → ℚ := fun q => if q = 1 / 400 then 1 / 20 else 0

/-- Concrete history for the C7 witness: ten snapshots, half of them zero
and half 1/10 in every metric (population mean 1/20, variance 1/400). -/
def stdDevHistory : List Metrics :=
  List.replicate 5 { requestsPerSec := 0, errorRate := 0, avgResponseTime := 0 }
  ++ List.replicate 5
    { requestsPerSec := 1 / 10, errorRate := 1 / 10, avgResponseTime := 1 / 10 }

/-- Concrete current snapshot for the C7 witness. -/
def stdDevCurrent : Metrics :=
  { requestsPerSec := 1, errorRate := 1, avgResponseTime := 1 }

/-- The everywhere-zero function, standing in for `math.Sqrt` in the C10
witness (correct at the only point used there, 0). -/
def sqZero : ℚ → ℚ := fun _ => 0

/-- Concrete constant history for the C10 witness. -/
def constHistory : List Metrics :=
  List.replicate 10
    { requestsPerSec := 100, errorRate := 1 / 20, avgResponseTime := 50 }

/-- Concrete current snapshot for the C10 witness: error rate shifted off
the constant baseline. -/
def shiftedCurrent : Metrics :=
  { requestsPerSec := 100, errorRate := 3 / 20, avgResponseTime := 50 }

/-! ## Theorems -/

theorem foldl_archiveMetrics (ms : List Metrics) :
    ∀ h : List Metrics, h.length ≤ maxHistoricalSize →
      ms.foldl archiveMetrics h =
        (h ++ ms).drop (h.length + ms.length - maxHistoricalSize) := by
  induction ms with
  | nil =>
    intro h hh
    simp [Nat.sub_eq_zero_of_le hh]
  | cons m rest ih =>
    intro h hh
    rw [List.foldl_cons]
    by_cases hc : (h ++ [m]).length > maxHistoricalSize
    · have h100 : h.length = maxHistoricalSize := by
        simp only [List.length_append, List.length_cons, List.length_nil] at hc
        omega
      have harch : archiveMetrics h m = (h ++ [m]).drop 1 := by
        simp only [archiveMetrics, if_pos hc]
      rw [harch]
      have hlen2 : ((h ++ [m]).drop 1).length ≤ maxHistoricalSize := by
        simp only [List.length_drop, List.length_append, List.length_cons,
          List.length_nil]
        omega
      rw [ih _ hlen2]
      have hda : ((h ++ [m]).drop 1) ++ rest = ((h ++ [m]) ++ rest).drop 1 :=
        (List.drop_append_of_le_length (by simp)).symm
      rw [hda, List.drop_drop]
      have hassoc : (h ++ [m]) ++ rest = h ++ m :: rest := by simp
      rw [hassoc]
      congr 1
      simp only [List.length_drop, List.length_append, List.length_cons,
        List.length_nil]
      omega
    · have harch : archiveMetrics h m = h ++ [m] := by
        simp only [archiveMetrics, if_neg hc]
      have hlen2 : (h ++ [m]).length ≤ maxHistoricalSize := by omega
      rw [harch, ih _ hlen2]
      have hassoc : (h ++ [m]) ++ rest = h ++ m :: rest := by simp
      rw [hassoc]
      congr 1
      simp only [List.length_append, List.length_cons, List.length_nil]
      omega

/-- C8: for every sequence of snapshots archived by `GetCurrentMetrics`,
the history ring is exactly the last (at most) 100 snapshots in append
order — so its length never exceeds 100 and eviction is FIFO. -/
theorem history_ring_fifo_bounded (ms : List Metrics) :
    (ms.foldl archiveMetrics []).length ≤ maxHistoricalSize ∧
    ms.foldl archiveMetrics [] = ms.drop (ms.length - maxHistoricalSize) := by
  have h := foldl_archiveMetrics ms [] (by simp [maxHistoricalSize])
  simp only [List.nil_append, List.length_nil, Nat.zero_add] at h
  refine ⟨?_, h⟩
  rw [h, List.length_drop]
  omega

/-- C2 counterexample: a window of one request snapshotted after half a
second yields requests_per_sec 2 (divisor 1/2), while the claimed
clamped-divisor value is 1; the two differ. -/
theorem computeMetrics_subsecond_divisor_ce :
    (computeMetrics { totalRequests := 1, errorCount := 0, responseTimes := [] }
      (1 / 2)).requestsPerSec = 2
    ∧ specClampedRPS 1 (1 / 2) = 1
    ∧ (2 : ℚ) ≠ 1 := by
  refine ⟨?_, ?_, by norm_num⟩
  · show (1 : ℚ) / (if (1 / 2 : ℚ) = 0 then 1 else 1 / 2) = 2
    norm_num
  · show (1 : ℚ) / max (1 / 2) 1 = 1
    norm_num

/-- C2 amended: requests_per_sec equals total_requests divided by the
elapsed seconds, where a divisor that is exactly 0 is replaced by 1;
nonzero sub-second elapsed values are used as the divisor unchanged (no
clamping to 1). -/
theorem computeMetrics_rps_divisor (w : MetricsWindow) (e : ℚ) :
    (computeMetrics w e).requestsPerSec =
      (w.totalRequests : ℚ) / (if e = 0 then 1 else e) := rfl

/-- C1 counterexample: starting from a running tailer, the first `Stop`
succeeds with a nil error, but a second `Stop` on the resulting state
panics by closing the already-closed stop channel — it is not a no-op. -/
theorem tailer_stop_second_call_panics_ce :
    Tailer.Stop { stopChClosed := false, watcherOpen := true, fileOpen := true } =
      .ok ({ stopChClosed := true, watcherOpen := false, fileOpen := false },
        none)
    ∧ Tailer.Stop
        { stopChClosed := true, watcherOpen := false, fileOpen := false } =
      .error .closeOfClosedChannel := ⟨rfl, rfl⟩

/-- C1 amended: `Stop` is not idempotent. A first call (stop channel still
open) closes the watcher and file and returns a nil error; any further
call finds the stop channel closed and panics (`close` of a closed
channel) instead of returning. -/
theorem tailer_stop_behavior (t : TailerCtl) :
    (t.stopChClosed = false →
      Tailer.Stop t =
        .ok ({ stopChClosed := true, watcherOpen := false, fileOpen := false },
          none))
    ∧ (t.stopChClosed = true →
      Tailer.Stop t = .error .closeOfClosedChannel) := by
  constructor <;> intro h <;> simp [Tailer.Stop, h]

/-- C9: on a read step with the file open, if the stat-reported size is
strictly below the recorded offset the step resets the offset to 0, seeks
the reader to the start and discards the incomplete-line buffer while
emitting nothing (the channel is unchanged); if the size equals the
offset, nothing is read and the state is unchanged. -/
theorem readNewLines_truncation_and_nodata (t : TailerRead)
    (hopen : t.fileOpen = true) :
    (t.fileContent.length < t.offset →
      readNewLines t =
        { t with offset := 0, readerPos := 0, incomplete := [] })
    ∧ (t.fileContent.length = t.offset → readNewLines t = t) := by
  constructor <;> intro h <;> simp [readNewLines, hopen, h]


theorem readNewLines_truncation_witness :
    truncatedTailer.fileOpen = true
    ∧ truncatedTailer.fileContent.length < truncatedTailer.offset
    ∧ readNewLines truncatedTailer =
        { truncatedTailer with offset := 0, readerPos := 0, incomplete := [] } :=
  ⟨rfl, by decide,
    (readNewLines_truncation_and_nodata truncatedTailer rfl).1 (by decide)⟩

/-- C5: for an initialized EWMA detector, one `Detect` call with
observation `cur` leaves each stored EWMA equal to
`alpha * observation + (1 - alpha) * previous EWMA`, exactly and
unconditionally (whether or not any anomaly was flagged). -/
theorem ewma_steady_state_update (d : MovingAverageDetector) (cur : Metrics)
    (hist : List Metrics) (h : d.inited = true) :
    ((d.Detect cur hist).1.ewmaErrorRate =
      d.alpha * cur.errorRate + (1 - d.alpha) * d.ewmaErrorRate)
    ∧ ((d.Detect cur hist).1.ewmaRequestsPerSec =
      d.alpha * cur.requestsPerSec + (1 - d.alpha) * d.ewmaRequestsPerSec)
    ∧ ((d.Detect cur hist).1.ewmaAvgResponseTime =
      d.alpha * cur.avgResponseTime + (1 - d.alpha) * d.ewmaAvgResponseTime) := by
  simp [MovingAverageDetector.Detect, h]

theorem ewma_steady_state_update_witness :
    ({ threshold := 1, alpha := 3 / 10, ewmaErrorRate := 1 / 20,
       ewmaRequestsPerSec := 100, ewmaAvgResponseTime := 50,
       inited := true } : MovingAverageDetector).inited = true
    ∧ ((({ threshold := 1, alpha := 3 / 10, ewmaErrorRate := 1 / 20,
           ewmaRequestsPerSec := 100, ewmaAvgResponseTime := 50,
           inited := true } : MovingAverageDetector).Detect
          { requestsPerSec := 150, errorRate := 1 / 20,
            avgResponseTime := 50 } []).1.ewmaErrorRate =
        (3 / 10 : ℚ) * (1 / 20) + (1 - 3 / 10) * (1 / 20))
    ∧ ((({ threshold := 1, alpha := 3 / 10, ewmaErrorRate := 1 / 20,
           ewmaRequestsPerSec := 100, ewmaAvgResponseTime := 50,
           inited := true } : MovingAverageDetector).Detect
          { requestsPerSec := 150, errorRate := 1 / 20,
            avgResponseTime := 50 } []).1.ewmaRequestsPerSec =
        (3 / 10 : ℚ) * 150 + (1 - 3 / 10) * 100)
    ∧ ((({ threshold := 1, alpha := 3 / 10, ewmaErrorRate := 1 / 20,
           ewmaRequestsPerSec := 100, ewmaAvgResponseTime := 50,
           inited := true } : MovingAverageDetector).Detect
          { requestsPerSec := 150, errorRate := 1 / 20,
            avgResponseTime := 50 } []).1.ewmaAvgResponseTime =
        (3 / 10 : ℚ) * 50 + (1 - 3 / 10) * 50) :=
  ⟨rfl, ewma_steady_state_update _ _ _ rfl⟩

/-- C6: for an uninitialized EWMA detector, a `Detect` call with fewer
than 5 history entries returns no anomalies and leaves the state (and in
particular the uninitialized flag) untouched; the first call with at
least 5 entries initializes each EWMA to the arithmetic mean of the
corresponding field over the whole history, sets the initialized flag,
and runs the steady-state update step in that same call. -/
theorem ewma_cold_start (d : MovingAverageDetector) (cur : Metrics)
    (hist : List Metrics) (h : d.inited = false) :
    (hist.length < 5 → d.Detect cur hist = (d, []))
    ∧ (5 ≤ hist.length →
        ((d.initEWMA hist).ewmaErrorRate =
            (hist.map (fun m => m.errorRate)).sum / (hist.length : ℚ)
          ∧ (d.initEWMA hist).ewmaRequestsPerSec =
            (hist.map (fun m => m.requestsPerSec)).sum / (hist.length : ℚ)
          ∧ (d.initEWMA hist).ewmaAvgResponseTime =
            (hist.map (fun m => m.avgResponseTime)).sum / (hist.length : ℚ))
        ∧ (d.Detect cur hist).1.inited = true
        ∧ d.Detect cur hist =
            MovingAverageDetector.Detect
              { d.initEWMA hist with inited := true } cur hist) := by
  constructor
  · intro hlt
    simp [MovingAverageDetector.Detect, h, hlt]
  · intro hge
    have hne : hist.length ≠ 0 := by omega
    have hnlt : ¬ hist.length < 5 := by omega
    refine ⟨⟨?_, ?_, ?_⟩, ?_, ?_⟩ <;>
      simp [MovingAverageDetector.Detect, MovingAverageDetector.initEWMA,
        h, hnlt, hne]




theorem ewma_cold_start_witness :
    ewmaColdDetector.inited = false ∧ 5 ≤ ewmaColdHistory.length
    ∧ (((ewmaColdDetector.initEWMA ewmaColdHistory).ewmaErrorRate =
          (ewmaColdHistory.map (fun m => m.errorRate)).sum /
            (ewmaColdHistory.length : ℚ)
        ∧ (ewmaColdDetector.initEWMA ewmaColdHistory).ewmaRequestsPerSec =
          (ewmaColdHistory.map (fun m => m.requestsPerSec)).sum /
            (ewmaColdHistory.length : ℚ)
        ∧ (ewmaColdDetector.initEWMA ewmaColdHistory).ewmaAvgResponseTime =
          (ewmaColdHistory.map (fun m => m.avgResponseTime)).sum /
            (ewmaColdHistory.length : ℚ))
      ∧ (ewmaColdDetector.Detect ewmaColdCurrent ewmaColdHistory).1.inited = true
      ∧ ewmaColdDetector.Detect ewmaColdCurrent ewmaColdHistory =
          MovingAverageDetector.Detect
            { ewmaColdDetector.initEWMA ewmaColdHistory with inited := true }
            ewmaColdCurrent ewmaColdHistory) :=
  ⟨by decide, by decide,
    (ewma_cold_start ewmaColdDetector ewmaColdCurrent ewmaColdHistory
      (by decide)).2 (by decide)⟩

theorem detectCUSUMAnomaly_desc (d : CUSUMDetector) (x pos neg μ : ℚ)
    (name : String) (ty : AnomalyType) (desc : String) (a : Anomaly)
    (h : (d.detectCUSUMAnomaly x pos neg μ name ty desc).2.2 = some a) :
    a.metric = name ∧
      (a.description = desc ++ " (upward shift)" ∨
       a.description = desc ++ " (downward shift)") := by
  simp only [CUSUMDetector.detectCUSUMAnomaly] at h
  split_ifs at h <;> simp at h <;> subst h <;> simp





theorem cusum_detect_out (d : CUSUMDetector) (cur : Metrics)
    (hist : List Metrics) (h : ¬(d.inited = false ∧ hist.length < 10)) :
    ∃ dER dRPS dRT : CUSUMDetector,
    ∃ pER nER μER pRPS nRPS μRPS pRT nRT μRT : ℚ,
      (d.Detect cur hist).2 =
        (dER.detectCUSUMAnomaly cur.errorRate pER nER μER "error_rate"
          AnomalyType.errorRate
          "Persistent error rate shift detected").2.2.toList
        ++ (dRPS.detectCUSUMAnomaly cur.requestsPerSec pRPS nRPS μRPS
          "requests_per_sec" AnomalyType.trafficSpike
          "Persistent traffic pattern change detected").2.2.toList
        ++ (dRT.detectCUSUMAnomaly cur.avgResponseTime pRT nRT μRT
          "avg_response_time" AnomalyType.responseTime
          "Persistent response time degradation detected").2.2.toList := by
  unfold CUSUMDetector.Detect
  rw [if_neg h]
  exact ⟨_, _, _, _, _, _, _, _, _, _, _, _, rfl⟩

theorem cusum_spike_eval :
    (cusumFreshDetector.Detect cusumSpikeCurrent cusumZeroHistory).2 =
      [cusumSpikeAnomaly] := by
  norm_num [cusumFreshDetector, cusumZeroHistory, cusumSpikeCurrent,
    cusumSpikeAnomaly, NewCUSUMDetector, CUSUMDetector.Detect,
    CUSUMDetector.initRefs, CUSUMDetector.detectCUSUMAnomaly,
    calculateCUSUMSeverity, max_def, List.map_replicate]
  rfl

/-- C3 counterexample: the CUSUM detector emits an error-rate anomaly
whose description is "Persistent error rate shift detected (upward
shift)", not the claimed "Abnormal error rate detected (upward shift)". -/
theorem cusum_description_ce :
    (cusumFreshDetector.Detect cusumSpikeCurrent cusumZeroHistory).2 =
      [cusumSpikeAnomaly]
    ∧ cusumSpikeAnomaly.description ≠
      "Abnormal error rate detected (upward shift)" := by
  exact ⟨cusum_spike_eval, by decide⟩

/-- C3 amended: every anomaly the CUSUM detector emits carries the fixed
per-metric base string — "Persistent error rate shift detected",
"Persistent traffic pattern change detected", or "Persistent response
time degradation detected" — with " (upward shift)" or " (downward
shift)" appended according to the direction of the detected shift. -/
theorem cusum_description_strings (d : CUSUMDetector) (cur : Metrics)
    (hist : List Metrics) :
    ∀ a ∈ (d.Detect cur hist).2,
      (a.metric = "error_rate" ∧
        (a.description = "Persistent error rate shift detected (upward shift)" ∨
         a.description =
           "Persistent error rate shift detected (downward shift)"))
      ∨ (a.metric = "requests_per_sec" ∧
        (a.description =
           "Persistent traffic pattern change detected (upward shift)" ∨
         a.description =
           "Persistent traffic pattern change detected (downward shift)"))
      ∨ (a.metric = "avg_response_time" ∧
        (a.description =
           "Persistent response time degradation detected (upward shift)" ∨
         a.description =
           "Persistent response time degradation detected (downward shift)")) := by
  intro a ha
  by_cases hcold : d.inited = false ∧ hist.length < 10
  · have hd : d.Detect cur hist = (d, []) := by
      unfold CUSUMDetector.Detect
      rw [if_pos hcold]
    rw [hd] at ha
    simp at ha
  · obtain ⟨dER, dRPS, dRT, pER, nER, μER, pRPS, nRPS, μRPS, pRT, nRT, μRT,
      hout⟩ := cusum_detect_out d cur hist hcold
    rw [hout] at ha
    simp only [List.mem_append, Option.mem_toList, Option.mem_def] at ha
    rcases ha with (hER | hRPS) | hRT
    · exact Or.inl ⟨(detectCUSUMAnomaly_desc _ _ _ _ _ _ _ _ _ hER).1,
        (detectCUSUMAnomaly_desc _ _ _ _ _ _ _ _ _ hER).2⟩
    · exact Or.inr (Or.inl
        ⟨(detectCUSUMAnomaly_desc _ _ _ _ _ _ _ _ _ hRPS).1,
         (detectCUSUMAnomaly_desc _ _ _ _ _ _ _ _ _ hRPS).2⟩)
    · exact Or.inr (Or.inr
        ⟨(detectCUSUMAnomaly_desc _ _ _ _ _ _ _ _ _ hRT).1,
         (detectCUSUMAnomaly_desc _ _ _ _ _ _ _ _ _ hRT).2⟩)

theorem cusum_description_strings_witness :
    cusumSpikeAnomaly ∈
      (cusumFreshDetector.Detect cusumSpikeCurrent cusumZeroHistory).2
    ∧ ((cusumSpikeAnomaly.metric = "error_rate" ∧
        (cusumSpikeAnomaly.description =
           "Persistent error rate shift detected (upward shift)" ∨
         cusumSpikeAnomaly.description =
           "Persistent error rate shift detected (downward shift)"))
      ∨ (cusumSpikeAnomaly.metric = "requests_per_sec" ∧
        (cusumSpikeAnomaly.description =
           "Persistent traffic pattern change detected (upward shift)" ∨
         cusumSpikeAnomaly.description =
           "Persistent traffic pattern change detected (downward shift)"))
      ∨ (cusumSpikeAnomaly.metric = "avg_response_time" ∧
        (cusumSpikeAnomaly.description =
           "Persistent response time degradation detected (upward shift)" ∨
         cusumSpikeAnomaly.description =
           "Persistent response time degradation detected (downward shift)"))) := by
  have hm : cusumSpikeAnomaly ∈
      (cusumFreshDetector.Detect cusumSpikeCurrent cusumZeroHistory).2 := by
    rw [cusum_spike_eval]
    exact List.mem_singleton.mpr rfl
  exact ⟨hm, cusum_description_strings cusumFreshDetector cusumSpikeCurrent
    cusumZeroHistory cusumSpikeAnomaly hm⟩

/-- C4: whenever `detectCUSUMAnomaly` emits an anomaly for a metric, both
returned accumulators are 0; and when both post-update sums exceed the
decision threshold in the same tick, the upward branch wins (the emitted
anomaly is the upward-shift one) and the reset still zeroes both. -/
theorem cusum_reset_and_upward_priority (d : CUSUMDetector)
    (x pos neg μ : ℚ) (name : String) (ty : AnomalyType) (desc : String) :
    (∀ a, (d.detectCUSUMAnomaly x pos neg μ name ty desc).2.2 = some a →
      (d.detectCUSUMAnomaly x pos neg μ name ty desc).1 = 0 ∧
      (d.detectCUSUMAnomaly x pos neg μ name ty desc).2.1 = 0)
    ∧ (max 0 (pos + (x - μ - d.slackParameter)) > d.decisionThreshold →
       max 0 (neg - (x - μ + d.slackParameter)) > d.decisionThreshold →
       d.detectCUSUMAnomaly x pos neg μ name ty desc =
         (0, 0, some
           { type := ty
             severity := calculateCUSUMSeverity
               (max 0 (pos + (x - μ - d.slackParameter))) d.decisionThreshold
             description := desc ++ " (upward shift)"
             metric := name
             actualValue := x
             expectedValue := μ
             deviation := x - μ })) := by
  constructor
  · intro a ha
    simp only [CUSUMDetector.detectCUSUMAnomaly] at ha ⊢
    split_ifs at ha ⊢ <;> simp_all
  · intro h1 h2
    simp only [CUSUMDetector.detectCUSUMAnomaly]
    rw [if_pos h1]

theorem cusum_reset_and_upward_priority_witness :
    (max (0 : ℚ)
        (10 + (0 - 0 - (NewCUSUMDetector (1 / 2) 5).slackParameter)) >
      (NewCUSUMDetector (1 / 2) 5).decisionThreshold)
    ∧ (max (0 : ℚ)
        (20 - (0 - 0 + (NewCUSUMDetector (1 / 2) 5).slackParameter)) >
      (NewCUSUMDetector (1 / 2) 5).decisionThreshold)
    ∧ (NewCUSUMDetector (1 / 2) 5).detectCUSUMAnomaly 0 10 20 0
        "error_rate" AnomalyType.errorRate
        "Persistent error rate shift detected" =
      (0, 0, some
        { type := AnomalyType.errorRate
          severity := calculateCUSUMSeverity
            (max 0 (10 + (0 - 0 - (NewCUSUMDetector (1 / 2) 5).slackParameter)))
            (NewCUSUMDetector (1 / 2) 5).decisionThreshold
          description := "Persistent error rate shift detected" ++
            " (upward shift)"
          metric := "error_rate"
          actualValue := 0
          expectedValue := 0
          deviation := 0 - 0 }) := by
  have h1 : max (0 : ℚ)
      (10 + (0 - 0 - (NewCUSUMDetector (1 / 2) 5).slackParameter)) >
      (NewCUSUMDetector (1 / 2) 5).decisionThreshold := by
    rw [show (NewCUSUMDetector (1 / 2) 5).slackParameter = 1 / 2 by norm_num [NewCUSUMDetector],
      show (NewCUSUMDetector (1 / 2) 5).decisionThreshold = 5 by norm_num [NewCUSUMDetector],
      max_def]
    norm_num
  have h2 : max (0 : ℚ)
      (20 - (0 - 0 + (NewCUSUMDetector (1 / 2) 5).slackParameter)) >
      (NewCUSUMDetector (1 / 2) 5).decisionThreshold := by
    rw [show (NewCUSUMDetector (1 / 2) 5).slackParameter = 1 / 2 by norm_num [NewCUSUMDetector],
      show (NewCUSUMDetector (1 / 2) 5).decisionThreshold = 5 by norm_num [NewCUSUMDetector],
      max_def]
    norm_num
  exact ⟨h1, h2,
    (cusum_reset_and_upward_priority (NewCUSUMDetector (1 / 2) 5) 0 10 20 0
      "error_rate" AnomalyType.errorRate
      "Persistent error rate shift detected").2 h1 h2⟩


theorem tailer_stop_behavior_witness :
    (({ stopChClosed := true, watcherOpen := false, fileOpen := false } :
      TailerCtl).stopChClosed = true)
    ∧ Tailer.Stop
        { stopChClosed := true, watcherOpen := false, fileOpen := false } =
      .error .closeOfClosedChannel :=
  ⟨rfl, (tailer_stop_behavior _).2 rfl⟩

theorem calculateStats_spec (sq : ℚ → ℚ) (hist : List Metrics)
    (f : Metrics → ℚ) (hne : hist ≠ []) :
    calculateStats sq hist f =
      (specPopMean (hist.map f), sq (specPopVar (hist.map f))) := by
  have hlen : hist.length ≠ 0 := fun hh => hne (List.length_eq_zero.mp hh)
  simp only [calculateStats, specPopMean, specPopVar, List.length_map,
    List.map_map, if_neg hlen, Function.comp, pow_two]
  rfl

theorem list_map_sum_const {α : Type} (l : List α) (f : α → ℚ) (c : ℚ)
    (h : ∀ m ∈ l, f m = c) : (l.map f).sum = (l.length : ℚ) * c := by
  induction l with
  | nil => simp
  | cons x xs ih =>
    have hx : f x = c := h x (List.mem_cons_self _ _)
    have hxs := ih (fun m hm => h m (List.mem_cons_of_mem _ hm))
    simp only [List.map_cons, List.sum_cons, hx, hxs, List.length_cons]
    push_cast
    ring

theorem calculateStats_const (sq : ℚ → ℚ) (hist : List Metrics)
    (f : Metrics → ℚ) (c : ℚ) (hne : hist ≠ [])
    (hc : ∀ m ∈ hist, f m = c) :
    calculateStats sq hist f = (c, sq 0) := by
  have hlen : hist.length ≠ 0 := fun hh => hne (List.length_eq_zero.mp hh)
  have hlenQ : (hist.length : ℚ) ≠ 0 := Nat.cast_ne_zero.mpr hlen
  have hsum : (hist.map f).sum = (hist.length : ℚ) * c :=
    list_map_sum_const hist f c hc
  have hmean : (hist.map f).sum / (hist.length : ℚ) = c := by
    rw [hsum, mul_comm, mul_div_assoc, div_self hlenQ, mul_one]
  have hvar : (hist.map (fun m => (f m - c) * (f m - c))).sum =
      (hist.length : ℚ) * 0 := by
    apply list_map_sum_const
    intro m hm
    rw [hc m hm]
    ring
  simp only [calculateStats, if_neg hlen, hmean, hvar, mul_zero, zero_div]

/-- C7: a StdDev `Detect` call with fewer than 10 history entries returns
nothing; with at least 10, writing μ and σ for the population mean and
population standard deviation of a metric over the history (σ is
characterized as the nonnegative square root of the population variance),
an error_rate or requests_per_sec anomaly — with expected=μ,
actual=current, deviation=|current−μ| — is emitted iff
|current − μ| > threshold·σ, while avg_response_time is flagged iff
current > μ + threshold·σ (upper tail only). -/
theorem stddev_detect_characterization (sq : ℚ → ℚ) (d : StdDevDetector)
    (cur : Metrics) (hist : List Metrics)
    (muER sigER muRPS sigRPS muRT sigRT : ℚ)
    (hmuER : specPopMean (hist.map (fun m => m.errorRate)) = muER)
    (hsigER : sq (specPopVar (hist.map (fun m => m.errorRate))) = sigER)
    (hmuRPS : specPopMean (hist.map (fun m => m.requestsPerSec)) = muRPS)
    (hsigRPS : sq (specPopVar (hist.map (fun m => m.requestsPerSec))) = sigRPS)
    (hmuRT : specPopMean (hist.map (fun m => m.avgResponseTime)) = muRT)
    (hsigRT : sq (specPopVar (hist.map (fun m => m.avgResponseTime))) = sigRT)
    (hrootER : 0 ≤ sigER ∧
      sigER * sigER = specPopVar (hist.map (fun m => m.errorRate)))
    (hrootRPS : 0 ≤ sigRPS ∧
      sigRPS * sigRPS = specPopVar (hist.map (fun m => m.requestsPerSec)))
    (hrootRT : 0 ≤ sigRT ∧
      sigRT * sigRT = specPopVar (hist.map (fun m => m.avgResponseTime))) :
    (hist.length < 10 → StdDevDetector.Detect sq d cur hist = [])
    ∧ (10 ≤ hist.length →
      ((∃ a ∈ StdDevDetector.Detect sq d cur hist,
          a.metric = "error_rate" ∧ a.expectedValue = muER ∧
          a.actualValue = cur.errorRate ∧
          a.deviation = |cur.errorRate - muER|) ↔
        |cur.errorRate - muER| > d.threshold * sigER)
      ∧ ((∃ a ∈ StdDevDetector.Detect sq d cur hist,
          a.metric = "requests_per_sec" ∧ a.expectedValue = muRPS ∧
          a.actualValue = cur.requestsPerSec ∧
          a.deviation = |cur.requestsPerSec - muRPS|) ↔
        |cur.requestsPerSec - muRPS| > d.threshold * sigRPS)
      ∧ ((∃ a ∈ StdDevDetector.Detect sq d cur hist,
          a.metric = "avg_response_time" ∧ a.expectedValue = muRT ∧
          a.actualValue = cur.avgResponseTime ∧
          a.deviation = cur.avgResponseTime - muRT) ↔
        cur.avgResponseTime > muRT + d.threshold * sigRT)) := by
  constructor
  · intro hlt
    simp [StdDevDetector.Detect, hlt]
  · intro hge
    have hne : hist ≠ [] := by
      intro hh
      subst hh
      simp at hge
    have hnlt : ¬ hist.length < 10 := by omega
    have hcsER : calculateStats sq hist (fun m => m.errorRate) =
        (muER, sigER) := by
      rw [calculateStats_spec sq hist _ hne, hmuER, hsigER]
    have hcsRPS : calculateStats sq hist (fun m => m.requestsPerSec) =
        (muRPS, sigRPS) := by
      rw [calculateStats_spec sq hist _ hne, hmuRPS, hsigRPS]
    have hcsRT : calculateStats sq hist (fun m => m.avgResponseTime) =
        (muRT, sigRT) := by
      rw [calculateStats_spec sq hist _ hne, hmuRT, hsigRT]
    simp only [StdDevDetector.Detect, if_neg hnlt, hcsER, hcsRPS, hcsRT]
    refine ⟨?_, ?_, ?_⟩ <;>
      split_ifs with h1 h2 h3 <;>
      simp_all [List.mem_append]

theorem stddev_witness_mean :
    specPopMean (List.replicate 5 (0 : ℚ) ++ List.replicate 5 (1 / 10)) =
      1 / 20 := by
  norm_num [specPopMean, List.sum_append, List.sum_replicate,
    List.length_append, List.length_replicate, nsmul_eq_mul]

theorem stddev_witness_var :
    specPopVar (List.replicate 5 (0 : ℚ) ++ List.replicate 5 (1 / 10)) =
      1 / 400 := by
  simp only [specPopVar, stddev_witness_mean]
  norm_num [List.map_append, List.map_replicate, List.sum_append,
    List.sum_replicate, List.length_append, List.length_replicate,
    nsmul_eq_mul]

theorem stddev_witness_mapER :
    stdDevHistory.map (fun m => m.errorRate) =
      List.replicate 5 (0 : ℚ) ++ List.replicate 5 (1 / 10) := by
  simp [stdDevHistory]

theorem stddev_witness_mapRPS :
    stdDevHistory.map (fun m => m.requestsPerSec) =
      List.replicate 5 (0 : ℚ) ++ List.replicate 5 (1 / 10) := by
  simp [stdDevHistory]

theorem stddev_witness_mapRT :
    stdDevHistory.map (fun m => m.avgResponseTime) =
      List.replicate 5 (0 : ℚ) ++ List.replicate 5 (1 / 10) := by
  simp [stdDevHistory]

theorem stddev_detect_characterization_witness :
    (specPopMean (stdDevHistory.map (fun m => m.errorRate)) = 1 / 20)
    ∧ (sqrtAt400 (specPopVar (stdDevHistory.map (fun m => m.errorRate))) =
        1 / 20)
    ∧ (specPopMean (stdDevHistory.map (fun m => m.requestsPerSec)) = 1 / 20)
    ∧ (sqrtAt400
        (specPopVar (stdDevHistory.map (fun m => m.requestsPerSec))) = 1 / 20)
    ∧ (specPopMean (stdDevHistory.map (fun m => m.avgResponseTime)) = 1 / 20)
    ∧ (sqrtAt400
        (specPopVar (stdDevHistory.map (fun m => m.avgResponseTime))) = 1 / 20)
    ∧ (0 ≤ (1 / 20 : ℚ) ∧ (1 / 20 : ℚ) * (1 / 20) =
        specPopVar (stdDevHistory.map (fun m => m.errorRate)))
    ∧ (0 ≤ (1 / 20 : ℚ) ∧ (1 / 20 : ℚ) * (1 / 20) =
        specPopVar (stdDevHistory.map (fun m => m.requestsPerSec)))
    ∧ (0 ≤ (1 / 20 : ℚ) ∧ (1 / 20 : ℚ) * (1 / 20) =
        specPopVar (stdDevHistory.map (fun m => m.avgResponseTime)))
    ∧ 10 ≤ stdDevHistory.length
    ∧ (((∃ a ∈ StdDevDetector.Detect sqrtAt400 { threshold := 2 }
          stdDevCurrent stdDevHistory,
          a.metric = "error_rate" ∧ a.expectedValue = 1 / 20 ∧
          a.actualValue = stdDevCurrent.errorRate ∧
          a.deviation = |stdDevCurrent.errorRate - 1 / 20|) ↔
        |stdDevCurrent.errorRate - 1 / 20| >
          ({ threshold := 2 } : StdDevDetector).threshold * (1 / 20))
      ∧ ((∃ a ∈ StdDevDetector.Detect sqrtAt400 { threshold := 2 }
          stdDevCurrent stdDevHistory,
          a.metric = "requests_per_sec" ∧ a.expectedValue = 1 / 20 ∧
          a.actualValue = stdDevCurrent.requestsPerSec ∧
          a.deviation = |stdDevCurrent.requestsPerSec - 1 / 20|) ↔
        |stdDevCurrent.requestsPerSec - 1 / 20| >
          ({ threshold := 2 } : StdDevDetector).threshold * (1 / 20))
      ∧ ((∃ a ∈ StdDevDetector.Detect sqrtAt400 { threshold := 2 }
          stdDevCurrent stdDevHistory,
          a.metric = "avg_response_time" ∧ a.expectedValue = 1 / 20 ∧
          a.actualValue = stdDevCurrent.avgResponseTime ∧
          a.deviation = stdDevCurrent.avgResponseTime - 1 / 20) ↔
        stdDevCurrent.avgResponseTime >
          1 / 20 + ({ threshold := 2 } : StdDevDetector).threshold *
            (1 / 20))) := by
  have hmER : specPopMean (stdDevHistory.map (fun m => m.errorRate)) =
      1 / 20 := by rw [stddev_witness_mapER]; exact stddev_witness_mean
  have hmRPS : specPopMean (stdDevHistory.map (fun m => m.requestsPerSec)) =
      1 / 20 := by rw [stddev_witness_mapRPS]; exact stddev_witness_mean
  have hmRT : specPopMean (stdDevHistory.map (fun m => m.avgResponseTime)) =
      1 / 20 := by rw [stddev_witness_mapRT]; exact stddev_witness_mean
  have hvER : specPopVar (stdDevHistory.map (fun m => m.errorRate)) =
      1 / 400 := by rw [stddev_witness_mapER]; exact stddev_witness_var
  have hvRPS : specPopVar (stdDevHistory.map (fun m => m.requestsPerSec)) =
      1 / 400 := by rw [stddev_witness_mapRPS]; exact stddev_witness_var
  have hvRT : specPopVar (stdDevHistory.map (fun m => m.avgResponseTime)) =
      1 / 400 := by rw [stddev_witness_mapRT]; exact stddev_witness_var
  have hsER : sqrtAt400
      (specPopVar (stdDevHistory.map (fun m => m.errorRate))) = 1 / 20 := by
    rw [hvER]; simp [sqrtAt400]
  have hsRPS : sqrtAt400
      (specPopVar (stdDevHistory.map (fun m => m.requestsPerSec))) =
      1 / 20 := by
    rw [hvRPS]; simp [sqrtAt400]
  have hsRT : sqrtAt400
      (specPopVar (stdDevHistory.map (fun m => m.avgResponseTime))) =
      1 / 20 := by
    rw [hvRT]; simp [sqrtAt400]
  have hrER : 0 ≤ (1 / 20 : ℚ) ∧ (1 / 20 : ℚ) * (1 / 20) =
      specPopVar (stdDevHistory.map (fun m => m.errorRate)) :=
    ⟨by norm_num, by rw [hvER]; norm_num⟩
  have hrRPS : 0 ≤ (1 / 20 : ℚ) ∧ (1 / 20 : ℚ) * (1 / 20) =
      specPopVar (stdDevHistory.map (fun m => m.requestsPerSec)) :=
    ⟨by norm_num, by rw [hvRPS]; norm_num⟩
  have hrRT : 0 ≤ (1 / 20 : ℚ) ∧ (1 / 20 : ℚ) * (1 / 20) =
      specPopVar (stdDevHistory.map (fun m => m.avgResponseTime)) :=
    ⟨by norm_num, by rw [hvRT]; norm_num⟩
  have hlen : 10 ≤ stdDevHistory.length := by
    simp [stdDevHistory]
  exact ⟨hmER, hsER, hmRPS, hsRPS, hmRT, hsRT, hrER, hrRPS, hrRT, hlen,
    (stddev_detect_characterization sqrtAt400 { threshold := 2 }
      stdDevCurrent stdDevHistory (1 / 20) (1 / 20) (1 / 20) (1 / 20)
      (1 / 20) (1 / 20) hmER hsER hmRPS hsRPS hmRT hsRT hrER hrRPS
      hrRT).2 hlen⟩

/-- C10: when every history value of error_rate (resp. requests_per_sec)
equals a common constant, the population standard deviation is
`math.Sqrt 0 = 0`, so any current value differing from the constant is
flagged — regardless of the (arbitrary) threshold — and the emitted
anomaly's severity is critical, because the deviation is compared against
multiples of σ = 0. -/
theorem stddev_zero_sigma_always_critical (sq : ℚ → ℚ) (hsq : sq 0 = 0)
    (d : StdDevDetector) (cur : Metrics) (hist : List Metrics)
    (c1 c2 : ℚ) (hlen : 10 ≤ hist.length) :
    ((∀ m ∈ hist, m.errorRate = c1) → cur.errorRate ≠ c1 →
      ∃ a ∈ StdDevDetector.Detect sq d cur hist,
        a.metric = "error_rate" ∧ a.severity = Severity.critical ∧
        a.expectedValue = c1 ∧ a.actualValue = cur.errorRate)
    ∧ ((∀ m ∈ hist, m.requestsPerSec = c2) → cur.requestsPerSec ≠ c2 →
      ∃ a ∈ StdDevDetector.Detect sq d cur hist,
        a.metric = "requests_per_sec" ∧ a.severity = Severity.critical ∧
        a.expectedValue = c2 ∧ a.actualValue = cur.requestsPerSec) := by
  have hne : hist ≠ [] := by
    intro hh
    subst hh
    simp at hlen
  have hnlt : ¬ hist.length < 10 := by omega
  constructor
  · intro hall hdiff
    have hcs : calculateStats sq hist (fun m => m.errorRate) = (c1, sq 0) :=
      calculateStats_const sq hist _ c1 hne hall
    have habs : |cur.errorRate - c1| > 0 :=
      abs_pos.mpr (sub_ne_zero.mpr hdiff)
    have hcond : |cur.errorRate - c1| > d.threshold * sq 0 := by
      rw [hsq, mul_zero]
      exact habs
    have hsev : calculateSeverity cur.errorRate c1 (sq 0) =
        Severity.critical := by
      rw [hsq]
      simp only [calculateSeverity, mul_zero]
      rw [if_pos habs]
    refine ⟨{ type := .errorRate
              severity := calculateSeverity cur.errorRate c1 (sq 0)
              description := "Abnormal error rate detected"
              metric := "error_rate"
              actualValue := cur.errorRate
              expectedValue := c1
              deviation := |cur.errorRate - c1| }, ?_, rfl, hsev, rfl, rfl⟩
    simp only [StdDevDetector.Detect, if_neg hnlt, hcs, List.mem_append]
    left
    left
    rw [if_pos hcond]
    exact List.mem_singleton.mpr rfl
  · intro hall hdiff
    have hcs : calculateStats sq hist (fun m => m.requestsPerSec) =
        (c2, sq 0) :=
      calculateStats_const sq hist _ c2 hne hall
    have habs : |cur.requestsPerSec - c2| > 0 :=
      abs_pos.mpr (sub_ne_zero.mpr hdiff)
    have hcond : |cur.requestsPerSec - c2| > d.threshold * sq 0 := by
      rw [hsq, mul_zero]
      exact habs
    have hsev : calculateSeverity cur.requestsPerSec c2 (sq 0) =
        Severity.critical := by
      rw [hsq]
      simp only [calculateSeverity, mul_zero]
      rw [if_pos habs]
    refine ⟨{ type := .trafficSpike
              severity := calculateSeverity cur.requestsPerSec c2 (sq 0)
              description := "Traffic spike or drop detected"
              metric := "requests_per_sec"
              actualValue := cur.requestsPerSec
              expectedValue := c2
              deviation := |cur.requestsPerSec - c2| }, ?_, rfl, hsev, rfl,
      rfl⟩
    simp only [StdDevDetector.Detect, if_neg hnlt, hcs, List.mem_append]
    left
    right
    rw [if_pos hcond]
    exact List.mem_singleton.mpr rfl

theorem stddev_zero_sigma_witness :
    sqZero 0 = 0 ∧ 10 ≤ constHistory.length
    ∧ (∀ m ∈ constHistory, m.errorRate = 1 / 20)
    ∧ shiftedCurrent.errorRate ≠ 1 / 20
    ∧ ∃ a ∈ StdDevDetector.Detect sqZero { threshold := 2 } shiftedCurrent
        constHistory,
        a.metric = "error_rate" ∧ a.severity = Severity.critical ∧
        a.expectedValue = 1 / 20 ∧
        a.actualValue = shiftedCurrent.errorRate := by
  have hall : ∀ m ∈ constHistory, m.errorRate = 1 / 20 := by
    intro m hm
    rw [List.eq_of_mem_replicate hm]
  have hdiff : shiftedCurrent.errorRate ≠ 1 / 20 := by
    norm_num [shiftedCurrent]
  have hlen : 10 ≤ constHistory.length := by
    simp [constHistory]
  exact ⟨rfl, hlen, hall, hdiff,
    (stddev_zero_sigma_always_critical sqZero rfl { threshold := 2 }
      shiftedCurrent constHistory (1 / 20) 100 hlen).1 hall hdiff⟩

end LogFlow
